import Mathlib

/-!
Shallow embedding of AlwaysMute (src/main.cpp): the endpoint-tracking and
mute-enforcement state machine.  HRESULTs are modelled as `Int` (32-bit
signed interpretation; `FAILED r` is `r < 0`), GUIDs as `Nat` (opaque
128-bit values), COM out-parameters as `Option` fields, and the platform
calls issued by the handlers as an explicit `Action` trace.
-/

namespace AlwaysMute

/-- HRESULT S_OK. -/
def S_OK : Int := 0

/-- HRESULT E_POINTER (0x80004003 as a signed 32-bit value). -/
def E_POINTER : Int := -2147467261

/-- HRESULT E_NOINTERFACE (0x80004002 as a signed 32-bit value). -/
def E_NOINTERFACE : Int := -2147467262

/-- Reinterpret a DWORD (unsigned 32-bit value) as a signed 32-bit integer. -/
def toInt32 (e : Nat) : Int :=
  if e < 2147483648 then (e : Int) else (e : Int) - 4294967296

/-- The __HRESULT_FROM_WIN32 macro: a Win32 error code mapped into an
HRESULT (identity when already non-positive as a signed value, else
tagged with FACILITY_WIN32 = 7 and the severity bit 0x80000000). -/
def hresultFromWin32 (e : Nat) : Int :=
  if toInt32 e ≤ 0 then toInt32 e
  else toInt32 ((e % 65536) + 458752 + 2147483648)

/-- E_NOTFOUND = HRESULT_FROM_WIN32(ERROR_NOT_FOUND = 1168) = 0x80070490,
the value GetDefaultAudioEndpoint returns when no default endpoint exists. -/
def E_NOTFOUND : Int := hresultFromWin32 1168

/-- IID of IUnknown, 00000000-0000-0000-C000-000000000046, as a 128-bit value. -/
def IID_IUnknown : Nat := 0x0000000000000000C000000000000046

/-- IID of IAudioEndpointVolumeCallback, 657804FA-D6AD-4496-8A60-352752AF4F89. -/
def IID_IAudioEndpointVolumeCallback : Nat := 0x657804FAD6AD44968A60352752AF4F89

/-- IID of IMMNotificationClient, 7991EEC9-7E89-4D85-8390-6C703CEC60C0. -/
def IID_IMMNotificationClient : Nat := 0x7991EEC97E894D8583906C703CEC60C0

/-- The window messages of the UserMessage enum that the relays post and the
main window procedure dispatches on (WM_USER, WM_USER+1, WM_USER+2). -/
inductive Msg where
  | trayIcon
  | getDefaultEndpoint
  | changeAudio
deriving DecidableEq, Repr

/-- Outcome of a PostMessageW call: either it succeeded, or it failed and
GetLastError returned `error`. -/
structure PostResult where
  ok : Bool
  error : Nat
deriving DecidableEq, Repr

/-- The AUDIO_VOLUME_NOTIFICATION_DATA payload delivered to
IAudioEndpointVolumeCallback::OnNotify.  Only `guidEventContext` is ever
read by the handler; the volume fields are carried to show that. -/
structure VolumeNotificationData where
  guidEventContext : Nat
  bMuted : Bool
  fMasterVolume : Int
deriving DecidableEq, Repr

/-- Result of a QueryInterface call: the returned HRESULT, what was stored
through the out-parameter (`none` = not written, `some none` = set to
nullptr, `some (some o)` = set to the object `o`), and how many times
AddRef was invoked. -/
structure QIResult where
  hr : Int
  written : Option (Option Nat)
  addRefs : Nat
deriving DecidableEq, Repr

/-- EndpointHandler::QueryInterface (src/main.cpp lines 266-283).
`this` is the callback object's identity, `ppvIsNull` whether the caller
passed a null out-pointer.  The guard is the source's exact condition:
IID_IUnknown ≠ riid OR IID_IAudioEndpointVolumeCallback ≠ riid. -/
def EndpointHandler.QueryInterface (this : Nat) (riid : Nat) (ppvIsNull : Bool) :
    QIResult :=
  if ppvIsNull then ⟨E_POINTER, none, 0⟩
  else if IID_IUnknown ≠ riid ∨ IID_IAudioEndpointVolumeCallback ≠ riid then
    ⟨E_NOINTERFACE, some none, 0⟩
  else ⟨S_OK, some (some this), 1⟩

/-- EndpointHandler::OnNotify (src/main.cpp lines 285-300).  `tag` is the
process's session GUID (*guid), `data` the notification payload (null
modelled as `none`), `post` the outcome PostMessageW would report.
Returns the HRESULT and the list of messages enqueued to the window. -/
def EndpointHandler.OnNotify (tag : Nat) (data : Option VolumeNotificationData)
    (post : PostResult) : Int × List Msg :=
  match data with
  | none => (E_POINTER, [])
  | some d =>
    if d.guidEventContext ≠ tag then
      if post.ok then (S_OK, [Msg.changeAudio])
      else (hresultFromWin32 post.error, [])
    else (S_OK, [])

/-- NotificationClient::QueryInterface (src/main.cpp lines 320-335); same
shape as EndpointHandler::QueryInterface with IMMNotificationClient. -/
def NotificationClient.QueryInterface (this : Nat) (riid : Nat) (ppvIsNull : Bool) :
    QIResult :=
  if ppvIsNull then ⟨E_POINTER, none, 0⟩
  else if IID_IUnknown ≠ riid ∨ IID_IMMNotificationClient ≠ riid then
    ⟨E_NOINTERFACE, some none, 0⟩
  else ⟨S_OK, some (some this), 1⟩

/-- EDataFlow values relevant to OnDefaultDeviceChanged. -/
inductive EDataFlow where
  | eRender
  | eCapture
  | eAll
deriving DecidableEq, Repr

/-- ERole values relevant to OnDefaultDeviceChanged. -/
inductive ERole where
  | eConsole
  | eMultimedia
  | eCommunications
deriving DecidableEq, Repr

/-- NotificationClient::OnDefaultDeviceChanged (src/main.cpp lines 337-351):
returns S_OK immediately unless flow = eRender and role = eConsole, in which
case it posts UserMessage::GetDefaultEndpoint to the main window. -/
def NotificationClient.OnDefaultDeviceChanged (flow : EDataFlow) (role : ERole)
    (post : PostResult) : Int × List Msg :=
  if flow ≠ EDataFlow.eRender ∨ role ≠ ERole.eConsole then (S_OK, [])
  else if post.ok then (S_OK, [Msg.getDefaultEndpoint])
  else (hresultFromWin32 post.error, [])

/-- NotificationClient::OnDeviceStateChanged (src/main.cpp lines 353-356). -/
def NotificationClient.OnDeviceStateChanged (_deviceId : Nat) (_newState : Nat) :
    Int × List Msg :=
  (S_OK, [])

/-- NotificationClient::OnDeviceAdded (src/main.cpp line 358). -/
def NotificationClient.OnDeviceAdded (_deviceId : Nat) : Int × List Msg :=
  (S_OK, [])

/-- NotificationClient::OnDeviceRemoved (src/main.cpp line 360). -/
def NotificationClient.OnDeviceRemoved (_deviceId : Nat) : Int × List Msg :=
  (S_OK, [])

/-- NotificationClient::OnPropertyValueChanged (src/main.cpp lines 362-367). -/
def NotificationClient.OnPropertyValueChanged (_deviceId : Nat) (_key : Nat) :
    Int × List Msg :=
  (S_OK, [])

/-- The audio-relevant part of the State struct (src/main.cpp lines 526-534):
the two ComPtr members (held object identities, `none` = null), plus a
counter used to hand out fresh identities for objects the handlers create
(volume-control handles and EndpointHandler relay instances). -/
structure LoopState where
  audioDevice : Option Nat
  endpointVolume : Option Nat
  next : Nat
deriving DecidableEq, Repr

/-- Platform calls the handlers issue, recorded as a trace.
`releaseVolumeControl h` is `state.endpointVolume.reset()`: releasing the
IAudioEndpointVolume handle `h`, which also ends the control-change
subscription registered on it (the relay's one platform reference).
`releaseDeviceSubscription` is the release of the IMMDeviceEnumerator that
holds the standing endpoint-notification registration (src/main.cpp lines
750 and 788): the only teardown the program performs for it. -/
inductive Action where
  | releaseVolumeControl (h : Nat)
  | releaseEndpoint (e : Nat)
  | queryDefaultEndpoint
  | activateVolumeControl (e : Nat) (h : Nat)
  | subscribeVolume (h : Nat) (s : Nat)
  | setVolumeScalar (h : Nat) (level : Nat) (tag : Nat)
  | removeTrayIcon
  | freeLibrary (n : Nat)
  | releaseDeviceSubscription
  | closeMutex
deriving DecidableEq, Repr

/-- HRESULT the platform reports for GetDefaultAudioEndpoint, together with
the endpoint written through the out-pointer when the call succeeded. -/
structure EndpointQuery where
  hr : Int
  endpoint : Nat
deriving DecidableEq, Repr

/-- HRESULTs the platform reports for the four calls made while handling
UserMessage::GetDefaultEndpoint. -/
structure BindResponses where
  query : EndpointQuery
  activateHr : Int
  subscribeHr : Int
  setVolumeHr : Int
deriving DecidableEq, Repr

/-- A queued window message dispatched to MainWndProc, paired with the
platform responses its handler will observe. -/
inductive Event where
  | getDefaultEndpoint (r : BindResponses)
  | changeAudio (hr : Int)
deriving DecidableEq, Repr

/-- How a handler run can abort: a thrown com_error (throwIfCOM on a FAILED
HRESULT), or dereferencing the null endpointVolume pointer. -/
inductive Fault where
  | com (hr : Int)
  | nullDeref
deriving DecidableEq, Repr

/-- Outcome of dispatching one message: the fault if the handler threw, the
state afterwards, and the platform calls issued (in order). -/
structure StepResult where
  fault : Option Fault
  state : LoopState
  trace : List Action
deriving DecidableEq, Repr

/-- The two reset() calls opening the UserMessage::GetDefaultEndpoint case
(src/main.cpp lines 661-662): release the volume-control handle (ending its
subscription) and then the endpoint handle, when held. -/
def teardown (st : LoopState) : LoopState × List Action :=
  ({ st with audioDevice := none, endpointVolume := none },
    (match st.endpointVolume with
     | some h => [Action.releaseVolumeControl h]
     | none => [])
    ++
    (match st.audioDevice with
     | some e => [Action.releaseEndpoint e]
     | none => []))

/-- Dispatching one audio message in MainWndProc (src/main.cpp lines
656-689).  UserMessage::GetDefaultEndpoint: teardown, query; on E_NOTFOUND
stop unbound; on a FAILED HRESULT throw; else Activate a volume-control
handle, RegisterControlChangeNotify a fresh EndpointHandler, and call
ChangeAudio (SetMasterVolumeLevelScalar(0.0f, guid)).  Each platform call is
recorded before its HRESULT is checked by throwIfCOM.
UserMessage::ChangeAudio: call ChangeAudio on the current state. -/
def step (tag : Nat) (st : LoopState) : Event → StepResult
  | Event.getDefaultEndpoint r =>
    let td := teardown st
    let st1 := td.1
    let t1 := td.2 ++ [Action.queryDefaultEndpoint]
    if r.query.hr = E_NOTFOUND then ⟨none, st1, t1⟩
    else if r.query.hr < 0 then ⟨some (Fault.com r.query.hr), st1, t1⟩
    else
      let e := r.query.endpoint
      let st2 := { st1 with audioDevice := some e }
      let h := st2.next
      let s := st2.next + 1
      let t2 := t1 ++ [Action.activateVolumeControl e h]
      if r.activateHr < 0 then ⟨some (Fault.com r.activateHr), st2, t2⟩
      else
        let st3 := { st2 with endpointVolume := some h, next := st2.next + 2 }
        let t3 := t2 ++ [Action.subscribeVolume h s]
        if r.subscribeHr < 0 then ⟨some (Fault.com r.subscribeHr), st3, t3⟩
        else
          let t4 := t3 ++ [Action.setVolumeScalar h 0 tag]
          if r.setVolumeHr < 0 then ⟨some (Fault.com r.setVolumeHr), st3, t4⟩
          else ⟨none, st3, t4⟩
  | Event.changeAudio hr =>
    match st.endpointVolume with
    | none => ⟨some Fault.nullDeref, st, []⟩
    | some h =>
      if hr < 0 then ⟨some (Fault.com hr), st, [Action.setVolumeScalar h 0 tag]⟩
      else ⟨none, st, [Action.setVolumeScalar h 0 tag]⟩

/-- Outcome of running the message loop over a list of queued events. -/
structure RunResult where
  fault : Option Fault
  state : LoopState
  trace : List Action
deriving DecidableEq, Repr

/-- The message loop (src/main.cpp lines 810-822) over a list of queued
audio events: dispatch each in order; a thrown fault ends the loop (the
exception unwinds out of TryMain). -/
def run (tag : Nat) (st : LoopState) : List Event → RunResult
  | [] => ⟨none, st, []⟩
  | e :: es =>
    let r := step tag st e
    match r.fault with
    | some f => ⟨some f, r.state, r.trace⟩
    | none =>
      let rest := run tag r.state es
      ⟨rest.fault, rest.state, r.trace ++ rest.trace⟩

/-- The state at the start of TryMain's message loop: both ComPtrs null. -/
def initialState : LoopState := ⟨none, none, 0⟩

/-- wWinMain (src/main.cpp lines 829-845): a normal return of TryMain is
passed through; a com_error or std::exception is logged and the process
exits with 1.  A null dereference is an access violation, outside C++
exception handling, so it yields no modelled exit code. -/
def wWinMainExit (r : RunResult) (normalExit : Int) : Option Int :=
  match r.fault with
  | none => some normalExit
  | some (Fault.com _) => some 1
  | some Fault.nullDeref => none

/-- Number of live volume-control handles after a trace, starting from
`cur` live handles: activation adds one, release removes one. -/
def liveAfter : Nat → List Action → Nat
  | cur, [] => cur
  | cur, Action.activateVolumeControl _ _ :: rest => liveAfter (cur + 1) rest
  | cur, Action.releaseVolumeControl _ :: rest => liveAfter (cur - 1) rest
  | cur, _ :: rest => liveAfter cur rest

/-- Checks, scanning a trace with `cur` handles live, that every activation
happens while zero handles are live and every release while exactly one is:
the running number of live volume-control handles (hence live bindings)
never exceeds one. -/
def scanLiveOK : Nat → List Action → Bool
  | _, [] => true
  | cur, Action.activateVolumeControl _ _ :: rest =>
    (cur == 0) && scanLiveOK (cur + 1) rest
  | cur, Action.releaseVolumeControl _ :: rest =>
    (cur == 1) && scanLiveOK (cur - 1) rest
  | cur, _ :: rest => scanLiveOK cur rest

/-- Live volume-control handles held by a state: one when endpointVolume is
non-null, else zero. -/
def liveOf (st : LoopState) : Nat :=
  match st.endpointVolume with
  | some _ => 1
  | none => 0

/-- The releases performed when TryMain returns or unwinds (src/main.cpp
lines 735-825), in the destructor order of its locals (reverse declaration
order): trayIcon (line 804), the SndVolSSO library (791), the State struct
(770; its ComPtr members endpointVolume then audioDevice), the Riched20
library (758), the deviceEnumerator ComPtr (750) carrying the standing
endpoint-notification registration (788), and the mutex handle (737). -/
def shutdownTrace (st : LoopState) : List Action :=
  [Action.removeTrayIcon, Action.freeLibrary 1]
  ++
  (match st.endpointVolume with
   | some h => [Action.releaseVolumeControl h]
   | none => [])
  ++
  (match st.audioDevice with
   | some e => [Action.releaseEndpoint e]
   | none => [])
  ++ [Action.freeLibrary 0, Action.releaseDeviceSubscription, Action.closeMutex]

lemma E_NOTFOUND_neg : E_NOTFOUND < 0 := by decide

lemma iid_cb_ne_unknown : IID_IAudioEndpointVolumeCallback ≠ IID_IUnknown := by
  decide

lemma iid_mm_ne_unknown : IID_IMMNotificationClient ≠ IID_IUnknown := by
  decide

/-- C9: for every riid and a non-null out-pointer, QueryInterface on both
callback classes stores null and returns E_NOINTERFACE without calling
AddRef — the source joins the two IID inequality tests with logical OR, and
since IID_IUnknown and the class's own IID differ, no riid (IID_IUnknown
and the own callback IID included, as riid ranges over all values here)
falsifies both; the S_OK branch is unreachable. -/
theorem queryInterface_always_noInterface (this : Nat) (riid : Nat) :
    EndpointHandler.QueryInterface this riid false = ⟨E_NOINTERFACE, some none, 0⟩ ∧
    NotificationClient.QueryInterface this riid false = ⟨E_NOINTERFACE, some none, 0⟩ := by
  have h1 : IID_IUnknown ≠ riid ∨ IID_IAudioEndpointVolumeCallback ≠ riid := by
    rcases eq_or_ne riid IID_IUnknown with h | h
    · right
      rw [h]
      exact iid_cb_ne_unknown
    · left
      exact fun hh => h hh.symm
  have h2 : IID_IUnknown ≠ riid ∨ IID_IMMNotificationClient ≠ riid := by
    rcases eq_or_ne riid IID_IUnknown with h | h
    · right
      rw [h]
      exact iid_mm_ne_unknown
    · left
      exact fun hh => h hh.symm
  constructor
  · simp [EndpointHandler.QueryInterface, h1]
  · simp [NotificationClient.QueryInterface, h2]

/-- C1: a volume-change notification whose event-context tag equals the
SessionTag is a terminal no-op: OnNotify returns S_OK and enqueues no
message, so the control loop issues no mute command and the state is
untouched.  The second conjunct shows the decision depends only on the
tag: two payloads with the same tag produce identical outcomes whatever
their volume and mute fields. -/
theorem onNotify_self_tag_noop (tag : Nat) (post : PostResult)
    (d : VolumeNotificationData) (hEq : d.guidEventContext = tag) :
    EndpointHandler.OnNotify tag (some d) post = (S_OK, ([] : List Msg)) ∧
    ∀ d' : VolumeNotificationData, d'.guidEventContext = d.guidEventContext →
      EndpointHandler.OnNotify tag (some d') post =
        EndpointHandler.OnNotify tag (some d) post := by
  constructor
  · simp [EndpointHandler.OnNotify, hEq]
  · intro d' h
    simp [EndpointHandler.OnNotify, h, hEq]

/-- Witness for onNotify_self_tag_noop at tag 5. -/
theorem onNotify_self_tag_noop_witness :
    EndpointHandler.OnNotify 5 (some ⟨5, false, 3⟩) ⟨true, 0⟩ = (S_OK, ([] : List Msg)) ∧
    ∀ d' : VolumeNotificationData,
      d'.guidEventContext = (⟨5, false, 3⟩ : VolumeNotificationData).guidEventContext →
      EndpointHandler.OnNotify 5 (some d') ⟨true, 0⟩ =
        EndpointHandler.OnNotify 5 (some ⟨5, false, 3⟩) ⟨true, 0⟩ :=
  onNotify_self_tag_noop 5 ⟨true, 0⟩ ⟨5, false, 3⟩ rfl

/-- C2: a volume-change notification whose tag differs from the SessionTag
enqueues exactly one UserMessage::ChangeAudio (not zero, not more), and
dispatching that message while Bound issues exactly one
SetMasterVolumeLevelScalar(0.0, SessionTag) call — a singleton trace —
leaving the state unchanged before the next queued event is processed. -/
theorem onNotify_external_tag_one_mute (tag : Nat) (post : PostResult)
    (d : VolumeNotificationData) (st : LoopState) (h : Nat) (hr : Int)
    (hNe : d.guidEventContext ≠ tag) (hPost : post.ok = true)
    (hBound : st.endpointVolume = some h) (hOk : 0 ≤ hr) :
    EndpointHandler.OnNotify tag (some d) post = (S_OK, [Msg.changeAudio]) ∧
    step tag st (Event.changeAudio hr) =
      ⟨none, st, [Action.setVolumeScalar h 0 tag]⟩ := by
  constructor
  · simp [EndpointHandler.OnNotify, hNe, hPost]
  · simp [step, hBound, not_lt.mpr hOk]

/-- Witness for onNotify_external_tag_one_mute: tag 1, foreign tag 2,
Bound on handle 7. -/
theorem onNotify_external_tag_one_mute_witness :
    EndpointHandler.OnNotify 1 (some ⟨2, false, 0⟩) ⟨true, 0⟩ = (S_OK, [Msg.changeAudio]) ∧
    step 1 ⟨some 4, some 7, 9⟩ (Event.changeAudio 0) =
      ⟨none, ⟨some 4, some 7, 9⟩, [Action.setVolumeScalar 7 0 1]⟩ :=
  onNotify_external_tag_one_mute 1 ⟨true, 0⟩ ⟨2, false, 0⟩ ⟨some 4, some 7, 9⟩ 7 0
    (by decide) rfl rfl (by decide)

/-- C3: when the acquire action (the UserMessage::GetDefaultEndpoint
handler, run at startup and on DefaultDeviceChanged) gets a default
endpoint from the platform and every platform call succeeds, it activates
a volume-control handle on that endpoint, subscribes a fresh relay to it,
issues one SetVolumeScalar(0.0, SessionTag) command, and ends Bound on
that endpoint. -/
theorem acquire_success_bound (tag : Nat) (st : LoopState) (r : BindResponses)
    (hq : 0 ≤ r.query.hr) (ha : 0 ≤ r.activateHr) (hs : 0 ≤ r.subscribeHr)
    (hv : 0 ≤ r.setVolumeHr) :
    step tag st (Event.getDefaultEndpoint r) =
      ⟨none,
       ⟨some r.query.endpoint, some st.next, st.next + 2⟩,
       (teardown st).2
         ++ [Action.queryDefaultEndpoint,
             Action.activateVolumeControl r.query.endpoint st.next,
             Action.subscribeVolume st.next (st.next + 1),
             Action.setVolumeScalar st.next 0 tag]⟩ := by
  have hE : r.query.hr ≠ E_NOTFOUND := by
    have := E_NOTFOUND_neg
    omega
  simp [step, hE, not_lt.mpr hq, not_lt.mpr ha, not_lt.mpr hs, not_lt.mpr hv,
    teardown]

/-- Witness for acquire_success_bound: startup state, endpoint 11. -/
theorem acquire_success_bound_witness :
    step 3 initialState (Event.getDefaultEndpoint ⟨⟨0, 11⟩, 0, 0, 0⟩) =
      ⟨none,
       ⟨some 11, some 0, 2⟩,
       (teardown initialState).2
         ++ [Action.queryDefaultEndpoint,
             Action.activateVolumeControl 11 0,
             Action.subscribeVolume 0 1,
             Action.setVolumeScalar 0 0 3]⟩ :=
  acquire_success_bound 3 initialState ⟨⟨0, 11⟩, 0, 0, 0⟩
    (by decide) (by decide) (by decide) (by decide)

/-- C4: when GetDefaultAudioEndpoint reports E_NOTFOUND, the handler stops
with no fault (no exception propagates, the process keeps running) in a
state holding no endpoint handle and no volume-control handle, having
issued no activation, subscription or mute command. -/
theorem acquire_notfound_unbound (tag : Nat) (st : LoopState) (r : BindResponses)
    (hq : r.query.hr = E_NOTFOUND) :
    step tag st (Event.getDefaultEndpoint r) =
      ⟨none, ⟨none, none, st.next⟩,
       (teardown st).2 ++ [Action.queryDefaultEndpoint]⟩ := by
  simp [step, hq, teardown]

/-- Witness for acquire_notfound_unbound from a Bound state. -/
theorem acquire_notfound_unbound_witness :
    step 3 ⟨some 11, some 4, 6⟩ (Event.getDefaultEndpoint ⟨⟨E_NOTFOUND, 0⟩, 0, 0, 0⟩) =
      ⟨none, ⟨none, none, 6⟩,
       (teardown ⟨some 11, some 4, 6⟩).2 ++ [Action.queryDefaultEndpoint]⟩ :=
  acquire_notfound_unbound 3 ⟨some 11, some 4, 6⟩ ⟨⟨E_NOTFOUND, 0⟩, 0, 0, 0⟩ rfl

/-- C5: replacing a binding releases the old volume-control handle (ending
its subscription) and the old endpoint handle first, then queries the
platform, and only within the remainder of the trace can a new
volume-control activation occur: release and cancellation strictly precede
both the query and any new activation. -/
theorem rebind_teardown_before_query (tag : Nat) (st : LoopState) (h e : Nat)
    (r : BindResponses) (hV : st.endpointVolume = some h)
    (hD : st.audioDevice = some e) :
    ∃ rest,
      (step tag st (Event.getDefaultEndpoint r)).trace =
        Action.releaseVolumeControl h :: Action.releaseEndpoint e ::
          Action.queryDefaultEndpoint :: rest ∧
      ∀ e2 h2,
        Action.activateVolumeControl e2 h2 ∈
          (step tag st (Event.getDefaultEndpoint r)).trace →
        Action.activateVolumeControl e2 h2 ∈ rest := by
  have key : ∃ rest,
      (step tag st (Event.getDefaultEndpoint r)).trace =
        Action.releaseVolumeControl h :: Action.releaseEndpoint e ::
          Action.queryDefaultEndpoint :: rest := by
    by_cases h1 : r.query.hr = E_NOTFOUND
    · exact ⟨[], by simp [step, teardown, h1, hV, hD]⟩
    · by_cases h2 : r.query.hr < 0
      · exact ⟨[], by simp [step, teardown, h1, h2, hV, hD]⟩
      · by_cases h3 : r.activateHr < 0
        · exact ⟨[Action.activateVolumeControl r.query.endpoint st.next],
            by simp [step, teardown, h1, h2, h3, hV, hD]⟩
        · by_cases h4 : r.subscribeHr < 0
          · exact ⟨[Action.activateVolumeControl r.query.endpoint st.next,
              Action.subscribeVolume st.next (st.next + 1)],
              by simp [step, teardown, h1, h2, h3, h4, hV, hD]⟩
          · by_cases h5 : r.setVolumeHr < 0
            · exact ⟨[Action.activateVolumeControl r.query.endpoint st.next,
                Action.subscribeVolume st.next (st.next + 1),
                Action.setVolumeScalar st.next 0 tag],
                by simp [step, teardown, h1, h2, h3, h4, h5, hV, hD]⟩
            · exact ⟨[Action.activateVolumeControl r.query.endpoint st.next,
                Action.subscribeVolume st.next (st.next + 1),
                Action.setVolumeScalar st.next 0 tag],
                by simp [step, teardown, h1, h2, h3, h4, h5, hV, hD]⟩
  obtain ⟨rest, hrest⟩ := key
  refine ⟨rest, hrest, ?_⟩
  intro e2 h2 hm
  rw [hrest] at hm
  simpa using hm

/-- Witness for rebind_teardown_before_query: Bound on handle 4 over
endpoint 11, rebinding to endpoint 12. -/
theorem rebind_teardown_before_query_witness :
    ∃ rest,
      (step 3 ⟨some 11, some 4, 6⟩
          (Event.getDefaultEndpoint ⟨⟨0, 12⟩, 0, 0, 0⟩)).trace =
        Action.releaseVolumeControl 4 :: Action.releaseEndpoint 11 ::
          Action.queryDefaultEndpoint :: rest ∧
      ∀ e2 h2,
        Action.activateVolumeControl e2 h2 ∈
          (step 3 ⟨some 11, some 4, 6⟩
              (Event.getDefaultEndpoint ⟨⟨0, 12⟩, 0, 0, 0⟩)).trace →
        Action.activateVolumeControl e2 h2 ∈ rest :=
  rebind_teardown_before_query 3 ⟨some 11, some 4, 6⟩ 4 11 ⟨⟨0, 12⟩, 0, 0, 0⟩ rfl rfl

/-- C10: OnDefaultDeviceChanged enqueues the rebind message only for the
eRender/eConsole pair — it enqueues exactly one message when both match
and the post succeeds, and returns S_OK with nothing enqueued for every
other flow/role combination — while the four remaining IMMNotificationClient
callbacks always return S_OK with no side effect. -/
theorem deviceChanged_filter (flow : EDataFlow) (role : ERole) (post : PostResult)
    (d k s : Nat) :
    ((NotificationClient.OnDefaultDeviceChanged flow role post).2 ≠ [] →
      flow = EDataFlow.eRender ∧ role = ERole.eConsole) ∧
    (¬(flow = EDataFlow.eRender ∧ role = ERole.eConsole) →
      NotificationClient.OnDefaultDeviceChanged flow role post = (S_OK, [])) ∧
    (flow = EDataFlow.eRender → role = ERole.eConsole → post.ok = true →
      NotificationClient.OnDefaultDeviceChanged flow role post =
        (S_OK, [Msg.getDefaultEndpoint])) ∧
    NotificationClient.OnDeviceStateChanged d s = (S_OK, []) ∧
    NotificationClient.OnDeviceAdded d = (S_OK, []) ∧
    NotificationClient.OnDeviceRemoved d = (S_OK, []) ∧
    NotificationClient.OnPropertyValueChanged d k = (S_OK, []) := by
  refine ⟨?_, ?_, ?_, rfl, rfl, rfl, rfl⟩
  · intro hne
    by_contra hc
    have : flow ≠ EDataFlow.eRender ∨ role ≠ ERole.eConsole := by tauto
    simp [NotificationClient.OnDefaultDeviceChanged, this] at hne
  · intro hc
    have : flow ≠ EDataFlow.eRender ∨ role ≠ ERole.eConsole := by tauto
    simp [NotificationClient.OnDefaultDeviceChanged, this]
  · intro hf hr hp
    simp [NotificationClient.OnDefaultDeviceChanged, hf, hr, hp]

/-- Witness for deviceChanged_filter at eRender/eConsole with a successful
post. -/
theorem deviceChanged_filter_witness :
    ((NotificationClient.OnDefaultDeviceChanged EDataFlow.eRender ERole.eConsole
        ⟨true, 0⟩).2 ≠ [] →
      EDataFlow.eRender = EDataFlow.eRender ∧ ERole.eConsole = ERole.eConsole) ∧
    (¬(EDataFlow.eRender = EDataFlow.eRender ∧ ERole.eConsole = ERole.eConsole) →
      NotificationClient.OnDefaultDeviceChanged EDataFlow.eRender ERole.eConsole
        ⟨true, 0⟩ = (S_OK, [])) ∧
    (EDataFlow.eRender = EDataFlow.eRender → ERole.eConsole = ERole.eConsole →
      (⟨true, 0⟩ : PostResult).ok = true →
      NotificationClient.OnDefaultDeviceChanged EDataFlow.eRender ERole.eConsole
        ⟨true, 0⟩ = (S_OK, [Msg.getDefaultEndpoint])) ∧
    NotificationClient.OnDeviceStateChanged 2 8 = (S_OK, []) ∧
    NotificationClient.OnDeviceAdded 2 = (S_OK, []) ∧
    NotificationClient.OnDeviceRemoved 2 = (S_OK, []) ∧
    NotificationClient.OnPropertyValueChanged 2 9 = (S_OK, []) :=
  deviceChanged_filter EDataFlow.eRender ERole.eConsole ⟨true, 0⟩ 2 9 8

lemma scanLiveOK_append (cur : Nat) (a b : List Action) :
    scanLiveOK cur (a ++ b) =
      (scanLiveOK cur a && scanLiveOK (liveAfter cur a) b) := by
  induction a generalizing cur with
  | nil => simp [scanLiveOK, liveAfter]
  | cons x xs ih =>
    cases x <;> simp [scanLiveOK, liveAfter, ih, Bool.and_assoc]

lemma step_scan (tag : Nat) (st : LoopState) (e : Event) :
    scanLiveOK (liveOf st) (step tag st e).trace = true ∧
    ((step tag st e).fault = none →
      liveAfter (liveOf st) (step tag st e).trace =
        liveOf (step tag st e).state) := by
  cases e with
  | changeAudio hr =>
    rcases hV : st.endpointVolume with _ | h
    · simp [step, hV, liveOf, scanLiveOK, liveAfter]
    · by_cases hhr : hr < 0 <;>
        simp [step, hV, hhr, liveOf, scanLiveOK, liveAfter]
  | getDefaultEndpoint r =>
    rcases hV : st.endpointVolume with _ | h <;>
      rcases hD : st.audioDevice with _ | d <;>
      by_cases h1 : r.query.hr = E_NOTFOUND <;>
      by_cases h2 : r.query.hr < 0 <;>
      by_cases h3 : r.activateHr < 0 <;>
      by_cases h4 : r.subscribeHr < 0 <;>
      by_cases h5 : r.setVolumeHr < 0 <;>
      simp [step, teardown, hV, hD, h1, h2, h3, h4, h5, liveOf, scanLiveOK,
        liveAfter]

lemma run_scan (tag : Nat) (es : List Event) :
    ∀ st : LoopState, scanLiveOK (liveOf st) (run tag st es).trace = true := by
  induction es with
  | nil =>
    intro st
    simp [run, scanLiveOK]
  | cons e es ih =>
    intro st
    have h := step_scan tag st e
    rcases hf : (step tag st e).fault with _ | f
    · have : run tag st (e :: es) =
          ⟨(run tag (step tag st e).state es).fault,
           (run tag (step tag st e).state es).state,
           (step tag st e).trace ++ (run tag (step tag st e).state es).trace⟩ := by
        simp [run, hf]
      rw [this]
      simp only [scanLiveOK_append, h.1, h.2 hf, Bool.true_and]
      exact ih (step tag st e).state
    · have : run tag st (e :: es) =
          ⟨some f, (step tag st e).state, (step tag st e).trace⟩ := by
        simp [run, hf]
      rw [this]
      exact h.1

/-- C6: over every sequence of queued events processed by the control loop
from the initial (Unbound) state, the running number of live
volume-control handles — live EndpointBindings — never exceeds one:
scanning the emitted platform-call trace, every activation happens while
zero handles are live (so a new binding is never installed while the
previous one is still live) and every release while exactly one is. -/
theorem at_most_one_binding (tag : Nat) (es : List Event) :
    scanLiveOK 0 (run tag initialState es).trace = true := by
  have h := run_scan tag es initialState
  simpa [initialState, liveOf] using h

/-- C7: the shutdown release sequence releases the standing device
subscription at a position strictly after any release of the live
binding's volume-control and endpoint handles: both are released, and the
binding — the most recently acquired resource, created during the message
loop after the subscription was registered — goes first. -/
theorem shutdown_releases_binding_then_subscription (st : LoopState) :
    ∃ pre post2,
      shutdownTrace st = pre ++ Action.releaseDeviceSubscription :: post2 ∧
      Action.releaseDeviceSubscription ∉ pre ∧
      (∀ h, st.endpointVolume = some h → Action.releaseVolumeControl h ∈ pre) ∧
      (∀ e, st.audioDevice = some e → Action.releaseEndpoint e ∈ pre) := by
  rcases hV : st.endpointVolume with _ | h <;> rcases hD : st.audioDevice with _ | d
  · exact ⟨[Action.removeTrayIcon, Action.freeLibrary 1, Action.freeLibrary 0],
      [Action.closeMutex], by simp [shutdownTrace, hV, hD], by simp,
      fun h2 hh => by simp [hV] at hh, fun e2 he => by simp [hD] at he⟩
  · exact ⟨[Action.removeTrayIcon, Action.freeLibrary 1, Action.releaseEndpoint d,
      Action.freeLibrary 0],
      [Action.closeMutex], by simp [shutdownTrace, hV, hD], by simp,
      fun h2 hh => by simp [hV] at hh,
      fun e2 he => by simp_all⟩
  · exact ⟨[Action.removeTrayIcon, Action.freeLibrary 1,
      Action.releaseVolumeControl h, Action.freeLibrary 0],
      [Action.closeMutex], by simp [shutdownTrace, hV, hD], by simp,
      fun h2 hh => by simp_all,
      fun e2 he => by simp [hD] at he⟩
  · exact ⟨[Action.removeTrayIcon, Action.freeLibrary 1,
      Action.releaseVolumeControl h, Action.releaseEndpoint d,
      Action.freeLibrary 0],
      [Action.closeMutex], by simp [shutdownTrace, hV, hD], by simp,
      fun h2 hh => by simp_all,
      fun e2 he => by simp_all⟩

/-- Witness for shutdown_releases_binding_then_subscription at a Bound
state. -/
theorem shutdown_releases_binding_then_subscription_witness :
    ∃ pre post2,
      shutdownTrace ⟨some 3, some 4, 10⟩ =
        pre ++ Action.releaseDeviceSubscription :: post2 ∧
      Action.releaseDeviceSubscription ∉ pre ∧
      (∀ h, (⟨some 3, some 4, 10⟩ : LoopState).endpointVolume = some h →
        Action.releaseVolumeControl h ∈ pre) ∧
      (∀ e, (⟨some 3, some 4, 10⟩ : LoopState).audioDevice = some e →
        Action.releaseEndpoint e ∈ pre) :=
  shutdown_releases_binding_then_subscription ⟨some 3, some 4, 10⟩

lemma run_append (tag : Nat) (es1 es2 : List Event) :
    ∀ st : LoopState, (run tag st es1).fault = none →
      run tag st (es1 ++ es2) =
        ⟨(run tag (run tag st es1).state es2).fault,
         (run tag (run tag st es1).state es2).state,
         (run tag st es1).trace ++ (run tag (run tag st es1).state es2).trace⟩ := by
  induction es1 with
  | nil =>
    intro st _
    simp [run]
  | cons e es ih =>
    intro st hok
    rcases hf : (step tag st e).fault with _ | f
    · have hrun : run tag st (e :: es) =
          ⟨(run tag (step tag st e).state es).fault,
           (run tag (step tag st e).state es).state,
           (step tag st e).trace ++ (run tag (step tag st e).state es).trace⟩ := by
        simp [run, hf]
      have hok2 : (run tag (step tag st e).state es).fault = none := by
        rw [hrun] at hok
        exact hok
      have hrun2 : run tag st (e :: (es ++ es2)) =
          ⟨(run tag (step tag st e).state (es ++ es2)).fault,
           (run tag (step tag st e).state (es ++ es2)).state,
           (step tag st e).trace
             ++ (run tag (step tag st e).state (es ++ es2)).trace⟩ := by
        simp [run, hf]
      rw [List.cons_append, hrun2, ih (step tag st e).state hok2, hrun]
      simp
    · exfalso
      have : run tag st (e :: es) =
          ⟨some f, (step tag st e).state, (step tag st e).trace⟩ := by
        simp [run, hf]
      rw [this] at hok
      simp at hok

/-- C8: a FAILED platform HRESULT surfacing as a com_error fault is never
caught or retried inside the loop: running the queue up to and including
the failing event yields that same fault for the whole run, no later event
contributes to the trace, and the entry point wWinMain turns the escaped
exception into process exit code 1. -/
theorem platform_failure_exits_one (tag : Nat) (st : LoopState)
    (es es2 : List Event) (e : Event) (hr : Int) (z : Int)
    (hok : (run tag st es).fault = none)
    (hfail : (step tag (run tag st es).state e).fault = some (Fault.com hr)) :
    (run tag st (es ++ e :: es2)).fault = some (Fault.com hr) ∧
    (run tag st (es ++ e :: es2)).trace =
      (run tag st es).trace ++ (step tag (run tag st es).state e).trace ∧
    wWinMainExit (run tag st (es ++ e :: es2)) z = some 1 := by
  have htail : run tag (run tag st es).state (e :: es2) =
      ⟨some (Fault.com hr), (step tag (run tag st es).state e).state,
       (step tag (run tag st es).state e).trace⟩ := by
    simp [run, hfail]
  have h1 := run_append tag es (e :: es2) st hok
  rw [htail] at h1
  refine ⟨by rw [h1], by rw [h1], ?_⟩
  rw [h1]
  simp [wWinMainExit]

/-- Witness for platform_failure_exits_one: the very first endpoint query
fails with E_FAIL (0x80004005); a further queued event is never reached. -/
theorem platform_failure_exits_one_witness :
    (run 0 initialState
        ([] ++ Event.getDefaultEndpoint ⟨⟨-2147467259, 0⟩, 0, 0, 0⟩ ::
          [Event.changeAudio 0])).fault = some (Fault.com (-2147467259)) ∧
    (run 0 initialState
        ([] ++ Event.getDefaultEndpoint ⟨⟨-2147467259, 0⟩, 0, 0, 0⟩ ::
          [Event.changeAudio 0])).trace =
      (run 0 initialState []).trace
        ++ (step 0 (run 0 initialState []).state
              (Event.getDefaultEndpoint ⟨⟨-2147467259, 0⟩, 0, 0, 0⟩)).trace ∧
    wWinMainExit
      (run 0 initialState
        ([] ++ Event.getDefaultEndpoint ⟨⟨-2147467259, 0⟩, 0, 0, 0⟩ ::
          [Event.changeAudio 0])) 0 = some 1 :=
  platform_failure_exits_one 0 initialState [] [Event.changeAudio 0]
    (Event.getDefaultEndpoint ⟨⟨-2147467259, 0⟩, 0, 0, 0⟩) (-2147467259) 0
    rfl (by decide)

end AlwaysMute
